import Mathlib

/-!
Verification of `rustproxy` (src/rustproxy-cli/src/main.rs), a CLI tool that
edits a cargo `config.toml` to install or remove registry-mirror settings.

The TOML document is modelled as an ordered association list of keys to items,
mirroring `toml_edit::DocumentMut` / `toml_edit::Table` (an insertion-ordered
map).  `Table::insert` and index-assignment replace the value in place when the
key is present and append at the end otherwise; `Table::remove` deletes the
entry; `get`/`get_mut` find the (unique) entry for a key.  The functions
`remove_proxy_config`, `add_proxy_config`, `get_predefined_proxies` and the
URL-resolution step of `set_proxy` are translated line by line from the source.
File-system behaviour is modelled by a record holding the optional config-file
content and the optional backup content, with TOML parsing and printing kept
abstract (the source delegates them to `toml_edit`).
-/

namespace Rustproxy

/-- A TOML item: a string value, a boolean value, or a (sub)table.
Only these shapes occur in the documents the program writes; any other
TOML value found in an existing file behaves, for the edits performed here,
exactly like the opaque non-table values `str`/`bool`
(the code only distinguishes `Item::Table` from everything else). -/
inductive Item where
  | str (s : String) : Item
  | bool (b : Bool) : Item
  | table (entries : List (String × Item)) : Item

/-- An ordered TOML table: insertion-ordered key/item pairs
(`toml_edit::Table`).  The root document is itself such a table. -/
abbrev TomlTable := List (String × Item)

/-- First entry for a key (`Table::get` on the insertion-ordered map). -/
def lookupItem : TomlTable → String → Option Item
  | [], _ => none
  | (k, v) :: rest, key => if k = key then some v else lookupItem rest key

/-- Delete the entry for a key (`Table::remove`, i.e. `shift_remove`:
remaining entries keep their relative order). -/
def removeKey : TomlTable → String → TomlTable
  | [], _ => []
  | (k, v) :: rest, key =>
      if k = key then removeKey rest key else (k, v) :: removeKey rest key

/-- Insert or update: replace the value in place when the key is present,
append at the end otherwise (`Table::insert` / index assignment on the
insertion-ordered map). -/
def setKey : TomlTable → String → Item → TomlTable
  | [], key, v => [(key, v)]
  | (k, w) :: rest, key, v =>
      if k = key then (key, v) :: rest else (k, w) :: setKey rest key v

/-- Apply `f` to the item stored at `key` (the `get_mut` pattern):
the rest of the table is untouched; nothing happens when the key is absent. -/
def modifyFirst : TomlTable → String → (Item → Item) → TomlTable
  | [], _, _ => []
  | (k, v) :: rest, key, f =>
      if k = key then (k, f v) :: rest else (k, v) :: modifyFirst rest key f

/-- The `if let Some(x) = t.get_mut(key) { if let Item::Table(inner) = x { … } }`
pattern: rewrite the subtable at `key` with `f`; non-table items and absent
keys are left alone. -/
def modifyTableAt (t : TomlTable) (key : String) (f : TomlTable → TomlTable) : TomlTable :=
  modifyFirst t key (fun it =>
    match it with
    | Item.table inner => Item.table (f inner)
    | other => other)

/-- Look one level into an optional item: entry `key` of a table item. -/
def lookupIn (o : Option Item) (key : String) : Option Item :=
  match o with
  | some (Item.table t) => lookupItem t key
  | _ => none

/-- Entry at path `k1.k2` of a document. -/
def lookup2 (d : TomlTable) (k1 k2 : String) : Option Item :=
  lookupIn (lookupItem d k1) k2

/-- Entry at path `k1.k2.k3` of a document. -/
def lookup3 (d : TomlTable) (k1 k2 k3 : String) : Option Item :=
  lookupIn (lookup2 d k1 k2) k3

/-- Number of entries for a key in a table. -/
def countKey : TomlTable → String → Nat
  | [], _ => 0
  | (k, _) :: rest, key =>
      if k = key then countKey rest key + 1 else countKey rest key

/-- `get_predefined_proxies`: the static 4-entry alias table. -/
def get_predefined_proxies : List (String × String) :=
  [ ("rsproxy", "https://rsproxy.cn/crates.io-index/"),
    ("ustc", "https://mirrors.ustc.edu.cn/crates.io-index/"),
    ("tuna", "https://mirrors.tuna.tsinghua.edu.cn/crates.io-index/"),
    ("aliyun", "https://mirrors.aliyun.com/crates.io-index/") ]

/-- Rust's `str::to_lowercase`, modelled character-wise (the alias names are
ASCII, so per-character lowering is exact here). -/
def toLowerStr (s : String) : String := String.mk (s.data.map Char.toLower)

/-- Rust's `str::starts_with`, modelled on the character lists. -/
def startsWithStr (s p : String) : Bool := List.isPrefixOf p.data s.data

/-- The URL-resolution step at the top of `set_proxy` (main.rs lines 38-54):
a predefined alias (matched against the lowercased input) resolves to its
table URL; otherwise a string starting with `http://` or `https://` is taken
verbatim; otherwise the program prints an error and exits — modelled as
`none`. -/
def resolve_proxy (proxy : String) : Option String :=
  match get_predefined_proxies.find? (fun p => p.1 == toLowerStr proxy) with
  | some p => some p.2
  | none =>
      if startsWithStr proxy "http://" || startsWithStr proxy "https://" then
        some proxy
      else
        none

/-- `remove_proxy_config` (main.rs lines 140-169), translated clause by
clause: strip `replace-with` from `[source.crates-io]`, drop
`[source.rsproxy]` and `[source.rsproxy-sparse]`, drop
`[registries.rsproxy]`, drop `git-fetch-with-cli` from `[net]`. -/
def remove_proxy_config (doc : TomlTable) : TomlTable :=
  let doc := modifyTableAt doc "source" (fun src =>
    let src := modifyTableAt src "crates-io" (fun c => removeKey c "replace-with")
    let src := removeKey src "rsproxy"
    removeKey src "rsproxy-sparse")
  let doc := modifyTableAt doc "registries" (fun r => removeKey r "rsproxy")
  modifyTableAt doc "net" (fun n => removeKey n "git-fetch-with-cli")

/-- The value written for `replace-with`. -/
def rwVal : Item := Item.str "rsproxy-sparse"

/-- The `[source.rsproxy]` table written by `add_proxy_config`. -/
def rpTbl : Item := Item.table [("registry", Item.str "https://rsproxy.cn/crates.io-index")]

/-- The `[source.rsproxy-sparse]` table written by `add_proxy_config`. -/
def rpsTbl : Item := Item.table [("registry", Item.str "sparse+https://rsproxy.cn/index/")]

/-- The `[registries.rsproxy]` table written by `add_proxy_config`. -/
def regTbl : Item := Item.table [("index", Item.str "https://rsproxy.cn/crates.io-index")]

/-- `add_proxy_config` (main.rs lines 172-240), translated clause by clause.
Note that the `proxy_url` parameter is never used by the function body in the
source: every inserted URL is a hard-coded rsproxy.cn URL. -/
def add_proxy_config (doc : TomlTable) (proxy_url : String) : TomlTable :=
  -- Add [source.crates-io] (lines 174-193)
  let doc :=
    match lookupItem doc "source" with
    | some (Item.table _) =>
        modifyTableAt doc "source" (fun src =>
          match lookupItem src "crates-io" with
          | some (Item.table _) =>
              modifyTableAt src "crates-io" (fun c => setKey c "replace-with" rwVal)
          | some _ => src
          | none => setKey src "crates-io" (Item.table [("replace-with", rwVal)]))
    | some _ => doc
    | none => setKey doc "source" (Item.table [("crates-io", Item.table [("replace-with", rwVal)])])
  -- Add [source.rsproxy] (lines 195-202)
  let doc := modifyTableAt doc "source" (fun src => setKey src "rsproxy" rpTbl)
  -- Add [source.rsproxy-sparse] (lines 204-211)
  let doc := modifyTableAt doc "source" (fun src => setKey src "rsproxy-sparse" rpsTbl)
  -- Add [registries.rsproxy] (lines 213-227)
  let doc :=
    match lookupItem doc "registries" with
    | some (Item.table _) =>
        modifyTableAt doc "registries" (fun r => setKey r "rsproxy" regTbl)
    | some _ => doc
    | none => setKey doc "registries" (Item.table [("rsproxy", regTbl)])
  -- Add [net] (lines 229-239)
  match lookupItem doc "net" with
  | some (Item.table _) =>
      modifyTableAt doc "net" (fun n => setKey n "git-fetch-with-cli" (Item.bool true))
  | some _ => doc
  | none => setKey doc "net" (Item.table [("git-fetch-with-cli", Item.bool true)])

/-- The document transformation performed by `set_proxy` (main.rs lines
85-89): remove the proxy blocks, then add the new ones. -/
def set_doc_transform (doc : TomlTable) (proxy_url : String) : TomlTable :=
  add_proxy_config (remove_proxy_config doc) proxy_url

/-! ### Basic lemmas about the table primitives -/

theorem lookupItem_modifyFirst_ne (t : TomlTable) (k k' : String) (f : Item → Item)
    (h : k' ≠ k) : lookupItem (modifyFirst t k f) k' = lookupItem t k' := by
  induction t with
  | nil => rfl
  | cons p rest ih =>
    obtain ⟨kk, vv⟩ := p
    by_cases hk : kk = k
    · subst hk
      have hne : ¬ kk = k' := fun he => h he.symm
      simp [modifyFirst, lookupItem, hne]
    · simp [modifyFirst, lookupItem, hk, ih]

theorem lookupItem_modifyFirst_self (t : TomlTable) (k : String) (f : Item → Item) :
    lookupItem (modifyFirst t k f) k = (lookupItem t k).map f := by
  induction t with
  | nil => rfl
  | cons p rest ih =>
    obtain ⟨kk, vv⟩ := p
    by_cases hk : kk = k
    · subst hk; simp [modifyFirst, lookupItem]
    · simp [modifyFirst, lookupItem, hk, ih]

theorem lookupItem_removeKey_ne (t : TomlTable) (k k' : String)
    (h : k' ≠ k) : lookupItem (removeKey t k) k' = lookupItem t k' := by
  induction t with
  | nil => rfl
  | cons p rest ih =>
    obtain ⟨kk, vv⟩ := p
    by_cases hk : kk = k
    · subst hk
      have hne : ¬ kk = k' := fun he => h he.symm
      simp [removeKey, lookupItem, hne, ih]
    · simp [removeKey, lookupItem, hk, ih]

theorem lookupItem_removeKey_self (t : TomlTable) (k : String) :
    lookupItem (removeKey t k) k = none := by
  induction t with
  | nil => rfl
  | cons p rest ih =>
    obtain ⟨kk, vv⟩ := p
    by_cases hk : kk = k
    · subst hk; simp [removeKey, ih]
    · simp [removeKey, lookupItem, hk, ih]

theorem lookupItem_setKey_ne (t : TomlTable) (k k' : String) (v : Item)
    (h : k' ≠ k) : lookupItem (setKey t k v) k' = lookupItem t k' := by
  induction t with
  | nil => simp [setKey, lookupItem, Ne.symm h]
  | cons p rest ih =>
    obtain ⟨kk, vv⟩ := p
    by_cases hk : kk = k
    · subst hk
      have hne : ¬ kk = k' := fun he => h he.symm
      simp [setKey, lookupItem, hne]
    · simp [setKey, lookupItem, hk, ih]

theorem lookupItem_setKey_self (t : TomlTable) (k : String) (v : Item) :
    lookupItem (setKey t k v) k = some v := by
  induction t with
  | nil => simp [setKey, lookupItem]
  | cons p rest ih =>
    obtain ⟨kk, vv⟩ := p
    by_cases hk : kk = k
    · subst hk; simp [setKey, lookupItem]
    · simp [setKey, lookupItem, hk, ih]

theorem removeKey_of_lookup_none (t : TomlTable) (k : String)
    (h : lookupItem t k = none) : removeKey t k = t := by
  induction t with
  | nil => rfl
  | cons p rest ih =>
    obtain ⟨kk, vv⟩ := p
    by_cases hk : kk = k
    · subst hk; simp [lookupItem] at h
    · simp [lookupItem, hk] at h
      simp [removeKey, hk, ih h]

theorem modifyFirst_of_lookup_none (t : TomlTable) (k : String) (f : Item → Item)
    (h : lookupItem t k = none) : modifyFirst t k f = t := by
  induction t with
  | nil => rfl
  | cons p rest ih =>
    obtain ⟨kk, vv⟩ := p
    by_cases hk : kk = k
    · subst hk; simp [lookupItem] at h
    · simp [lookupItem, hk] at h
      simp [modifyFirst, hk, ih h]

theorem modifyFirst_of_lookup_some (t : TomlTable) (k : String) (f : Item → Item)
    (v : Item) (h : lookupItem t k = some v) (hf : f v = v) : modifyFirst t k f = t := by
  induction t with
  | nil => simp [lookupItem] at h
  | cons p rest ih =>
    obtain ⟨kk, vv⟩ := p
    by_cases hk : kk = k
    · subst hk
      simp [lookupItem] at h
      subst h
      simp [modifyFirst, hf]
    · simp [lookupItem, hk] at h
      simp [modifyFirst, hk, ih h]

theorem removeKey_setKey_self (t : TomlTable) (k : String) (v : Item) :
    removeKey (setKey t k v) k = removeKey t k := by
  induction t with
  | nil => simp [setKey, removeKey]
  | cons p rest ih =>
    obtain ⟨kk, vv⟩ := p
    by_cases hk : kk = k
    · subst hk; simp [setKey, removeKey]
    · simp [setKey, removeKey, hk, ih]

theorem modifyFirst_setKey_self (t : TomlTable) (k : String) (v : Item) (f : Item → Item) :
    modifyFirst (setKey t k v) k f = setKey t k (f v) := by
  induction t with
  | nil => simp [setKey, modifyFirst]
  | cons p rest ih =>
    obtain ⟨kk, vv⟩ := p
    by_cases hk : kk = k
    · subst hk; simp [setKey, modifyFirst]
    · simp [setKey, modifyFirst, hk, ih]

theorem modifyFirst_modifyFirst_self (t : TomlTable) (k : String) (f g : Item → Item) :
    modifyFirst (modifyFirst t k f) k g = modifyFirst t k (fun x => g (f x)) := by
  induction t with
  | nil => rfl
  | cons p rest ih =>
    obtain ⟨kk, vv⟩ := p
    by_cases hk : kk = k
    · subst hk; simp [modifyFirst]
    · simp [modifyFirst, hk, ih]

theorem modifyFirst_congr (t : TomlTable) (k : String) (f g : Item → Item)
    (v : Item) (h : lookupItem t k = some v) (hfg : f v = g v) :
    modifyFirst t k f = modifyFirst t k g := by
  induction t with
  | nil => simp [lookupItem] at h
  | cons p rest ih =>
    obtain ⟨kk, vv⟩ := p
    by_cases hk : kk = k
    · subst hk
      simp [lookupItem] at h
      subst h
      simp [modifyFirst, hfg]
    · simp [lookupItem, hk] at h
      simp [modifyFirst, hk, ih h]

theorem modifyFirst_comm (t : TomlTable) (k k' : String) (f g : Item → Item)
    (h : k ≠ k') : modifyFirst (modifyFirst t k f) k' g = modifyFirst (modifyFirst t k' g) k f := by
  induction t with
  | nil => rfl
  | cons p rest ih =>
    obtain ⟨kk, vv⟩ := p
    by_cases hk : kk = k
    · subst hk
      have hne : ¬ kk = k' := fun he => h he
      simp [modifyFirst, hne]
    · by_cases hk' : kk = k'
      · subst hk'
        simp [modifyFirst, hk, Ne.symm h]
      · simp [modifyFirst, hk, hk', ih]

theorem removeKey_modifyFirst_comm (t : TomlTable) (k k' : String) (f : Item → Item)
    (h : k ≠ k') : removeKey (modifyFirst t k f) k' = modifyFirst (removeKey t k') k f := by
  induction t with
  | nil => rfl
  | cons p rest ih =>
    obtain ⟨kk, vv⟩ := p
    by_cases hk : kk = k
    · subst hk
      have hne : ¬ kk = k' := fun he => h he
      simp [modifyFirst, removeKey, hne, ih]
    · by_cases hk' : kk = k'
      · subst hk'
        simp [modifyFirst, removeKey, hk, ih]
      · simp [modifyFirst, removeKey, hk, hk', ih]

theorem setKey_modifyFirst_comm (t : TomlTable) (k k' : String) (f : Item → Item) (v : Item)
    (h : k ≠ k') : setKey (modifyFirst t k f) k' v = modifyFirst (setKey t k' v) k f := by
  induction t with
  | nil => simp [modifyFirst, setKey, Ne.symm h]
  | cons p rest ih =>
    obtain ⟨kk, vv⟩ := p
    by_cases hk : kk = k
    · subst hk
      have hne : ¬ kk = k' := fun he => h he
      simp [modifyFirst, setKey, hne, ih]
    · by_cases hk' : kk = k'
      · subst hk'
        simp [modifyFirst, setKey, hk, ih]
      · simp [modifyFirst, setKey, hk, hk', ih]

theorem removeKey_setKey_comm (t : TomlTable) (k k' : String) (v : Item)
    (h : k ≠ k') : removeKey (setKey t k v) k' = setKey (removeKey t k') k v := by
  induction t with
  | nil => simp [setKey, removeKey, h]
  | cons p rest ih =>
    obtain ⟨kk, vv⟩ := p
    by_cases hk : kk = k
    · subst hk
      have hne : ¬ kk = k' := fun he => h he
      simp [setKey, removeKey, hne, ih]
    · by_cases hk' : kk = k'
      · subst hk'
        simp [setKey, removeKey, hk, ih]
      · simp [setKey, removeKey, hk, hk', ih]

theorem countKey_eq_zero_of_lookup_none (t : TomlTable) (k : String)
    (h : lookupItem t k = none) : countKey t k = 0 := by
  induction t with
  | nil => rfl
  | cons p rest ih =>
    obtain ⟨kk, vv⟩ := p
    by_cases hk : kk = k
    · subst hk; simp [lookupItem] at h
    · simp [lookupItem, hk] at h
      simp [countKey, hk, ih h]

theorem countKey_setKey_of_lookup_none (t : TomlTable) (k : String) (v : Item)
    (h : lookupItem t k = none) : countKey (setKey t k v) k = 1 := by
  induction t with
  | nil => simp [setKey, countKey]
  | cons p rest ih =>
    obtain ⟨kk, vv⟩ := p
    by_cases hk : kk = k
    · subst hk; simp [lookupItem] at h
    · simp [lookupItem, hk] at h
      simp [setKey, countKey, hk, ih h]

theorem countKey_setKey_ne (t : TomlTable) (k k' : String) (v : Item)
    (h : k' ≠ k) : countKey (setKey t k v) k' = countKey t k' := by
  induction t with
  | nil => simp [setKey, countKey, Ne.symm h]
  | cons p rest ih =>
    obtain ⟨kk, vv⟩ := p
    by_cases hk : kk = k
    · subst hk
      have hne : ¬ kk = k' := fun he => h he.symm
      simp [setKey, countKey, hne]
    · simp [setKey, countKey, hk, ih]

theorem countKey_removeKey_self (t : TomlTable) (k : String) :
    countKey (removeKey t k) k = 0 := by
  induction t with
  | nil => rfl
  | cons p rest ih =>
    obtain ⟨kk, vv⟩ := p
    by_cases hk : kk = k
    · subst hk; simp [removeKey, ih]
    · simp [removeKey, countKey, hk, ih]

theorem countKey_modifyFirst (t : TomlTable) (k k' : String) (f : Item → Item) :
    countKey (modifyFirst t k f) k' = countKey t k' := by
  induction t with
  | nil => rfl
  | cons p rest ih =>
    obtain ⟨kk, vv⟩ := p
    by_cases hk : kk = k
    · subst hk; simp [modifyFirst, countKey]
    · simp [modifyFirst, countKey, hk, ih]

/-! ### Lemmas about `modifyTableAt` -/

theorem lookupItem_modifyTableAt_ne (t : TomlTable) (k k' : String)
    (f : TomlTable → TomlTable) (h : k' ≠ k) :
    lookupItem (modifyTableAt t k f) k' = lookupItem t k' :=
  lookupItem_modifyFirst_ne t k k' _ h

theorem modifyTableAt_comp (t : TomlTable) (k : String) (f g : TomlTable → TomlTable) :
    modifyTableAt (modifyTableAt t k f) k g = modifyTableAt t k (fun x => g (f x)) := by
  unfold modifyTableAt
  rw [modifyFirst_modifyFirst_self]
  congr 1
  funext it
  cases it <;> rfl

theorem modifyTableAt_of_lookup_none (t : TomlTable) (k : String)
    (f : TomlTable → TomlTable) (h : lookupItem t k = none) :
    modifyTableAt t k f = t :=
  modifyFirst_of_lookup_none t k _ h

theorem modifyTableAt_of_lookup_str (t : TomlTable) (k : String)
    (f : TomlTable → TomlTable) (s : String) (h : lookupItem t k = some (Item.str s)) :
    modifyTableAt t k f = t :=
  modifyFirst_of_lookup_some t k _ _ h rfl

theorem modifyTableAt_of_lookup_bool (t : TomlTable) (k : String)
    (f : TomlTable → TomlTable) (b : Bool) (h : lookupItem t k = some (Item.bool b)) :
    modifyTableAt t k f = t :=
  modifyFirst_of_lookup_some t k _ _ h rfl

theorem lookupItem_modifyTableAt_table (t : TomlTable) (k : String)
    (f : TomlTable → TomlTable) (inner : TomlTable)
    (h : lookupItem t k = some (Item.table inner)) :
    lookupItem (modifyTableAt t k f) k = some (Item.table (f inner)) := by
  unfold modifyTableAt
  rw [lookupItem_modifyFirst_self, h]
  rfl

theorem modifyTableAt_setKey_table (t : TomlTable) (k : String)
    (f : TomlTable → TomlTable) (inner : TomlTable) :
    modifyTableAt (setKey t k (Item.table inner)) k f
      = setKey t k (Item.table (f inner)) := by
  unfold modifyTableAt
  rw [modifyFirst_setKey_self]

/-! ### Per-key phase decomposition of `add_proxy_config` -/

/-- The rewrite `add_proxy_config` performs inside an existing `[source]`
table: update or create `crates-io.replace-with`, then insert the `rsproxy`
and `rsproxy-sparse` source tables. -/
def srcAdd (src : TomlTable) : TomlTable :=
  setKey
    (setKey
      (match lookupItem src "crates-io" with
       | some (Item.table _) =>
           modifyTableAt src "crates-io" (fun c => setKey c "replace-with" rwVal)
       | some _ => src
       | none => setKey src "crates-io" (Item.table [("replace-with", rwVal)]))
      "rsproxy" rpTbl)
    "rsproxy-sparse" rpsTbl

/-- The rewrite `add_proxy_config` performs inside an existing
`[registries]` table. -/
def regAdd (r : TomlTable) : TomlTable := setKey r "rsproxy" regTbl

/-- The rewrite `add_proxy_config` performs inside an existing `[net]`
table. -/
def netAdd (n : TomlTable) : TomlTable := setKey n "git-fetch-with-cli" (Item.bool true)

/-- The rewrite `remove_proxy_config` performs inside an existing `[source]`
table. -/
def srcRm (src : TomlTable) : TomlTable :=
  removeKey
    (removeKey (modifyTableAt src "crates-io" (fun c => removeKey c "replace-with"))
      "rsproxy")
    "rsproxy-sparse"

/-- The first three clauses of `add_proxy_config` (everything touching
`[source]`), as one document transformation. -/
def srcAddPhase (d : TomlTable) : TomlTable :=
  let d :=
    match lookupItem d "source" with
    | some (Item.table _) =>
        modifyTableAt d "source" (fun src =>
          match lookupItem src "crates-io" with
          | some (Item.table _) =>
              modifyTableAt src "crates-io" (fun c => setKey c "replace-with" rwVal)
          | some _ => src
          | none => setKey src "crates-io" (Item.table [("replace-with", rwVal)]))
    | some _ => d
    | none => setKey d "source" (Item.table [("crates-io", Item.table [("replace-with", rwVal)])])
  let d := modifyTableAt d "source" (fun src => setKey src "rsproxy" rpTbl)
  modifyTableAt d "source" (fun src => setKey src "rsproxy-sparse" rpsTbl)

/-- The `[registries]` clause of `add_proxy_config` as a document
transformation. -/
def regAddDoc (d : TomlTable) : TomlTable :=
  match lookupItem d "registries" with
  | some (Item.table _) => modifyTableAt d "registries" regAdd
  | some _ => d
  | none => setKey d "registries" (Item.table [("rsproxy", regTbl)])

/-- The `[net]` clause of `add_proxy_config` as a document transformation. -/
def netAddDoc (d : TomlTable) : TomlTable :=
  match lookupItem d "net" with
  | some (Item.table _) => modifyTableAt d "net" netAdd
  | some _ => d
  | none => setKey d "net" (Item.table [("git-fetch-with-cli", Item.bool true)])

theorem add_proxy_config_phases (d : TomlTable) (u : String) :
    add_proxy_config d u = netAddDoc (regAddDoc (srcAddPhase d)) := rfl

/-- The `[source]` phase in closed form: create the whole `[source]` block
when the key is absent, rewrite the existing table with `srcAdd` when it is a
table, do nothing when it is some other value. -/
def srcAddDoc (d : TomlTable) : TomlTable :=
  match lookupItem d "source" with
  | some (Item.table _) => modifyTableAt d "source" srcAdd
  | some _ => d
  | none => setKey d "source" (Item.table (srcAdd []))

theorem srcAddPhase_eq (d : TomlTable) : srcAddPhase d = srcAddDoc d := by
  unfold srcAddPhase srcAddDoc
  cases hs : lookupItem d "source" with
  | none =>
    simp only
    rw [modifyTableAt_setKey_table, modifyTableAt_setKey_table]
    rfl
  | some v =>
    cases v with
    | str s =>
      simp only
      rw [modifyTableAt_of_lookup_str d "source" _ s hs,
        modifyTableAt_of_lookup_str d "source" _ s hs]
    | bool b =>
      simp only
      rw [modifyTableAt_of_lookup_bool d "source" _ b hs,
        modifyTableAt_of_lookup_bool d "source" _ b hs]
    | table t =>
      simp only
      rw [modifyTableAt_comp, modifyTableAt_comp]
      rfl

theorem add_proxy_config_eq (d : TomlTable) (u : String) :
    add_proxy_config d u = netAddDoc (regAddDoc (srcAddDoc d)) := by
  rw [add_proxy_config_phases, srcAddPhase_eq]

/-- `remove_proxy_config` as a chain of per-key table rewrites. -/
theorem remove_proxy_config_eq (d : TomlTable) :
    remove_proxy_config d
      = modifyTableAt
          (modifyTableAt (modifyTableAt d "source" srcRm) "registries"
            (fun r => removeKey r "rsproxy"))
          "net" (fun n => removeKey n "git-fetch-with-cli") := rfl

theorem modifyTableAt_of_lookup_table (t : TomlTable) (k : String)
    (f : TomlTable → TomlTable) (c : TomlTable)
    (h : lookupItem t k = some (Item.table c)) (hf : f c = c) :
    modifyTableAt t k f = t := by
  unfold modifyTableAt
  exact modifyFirst_of_lookup_some t k _ _ h (by simp [hf])

theorem removeKey_removeKey_self (t : TomlTable) (k : String) :
    removeKey (removeKey t k) k = removeKey t k :=
  removeKey_of_lookup_none _ _ (lookupItem_removeKey_self t k)

theorem setKey_modifyTableAt_comm (t : TomlTable) (k k' : String)
    (f : TomlTable → TomlTable) (v : Item) (h : k ≠ k') :
    setKey (modifyTableAt t k f) k' v = modifyTableAt (setKey t k' v) k f :=
  setKey_modifyFirst_comm t k k' _ v h

theorem removeKey_modifyTableAt_comm (t : TomlTable) (k k' : String)
    (f : TomlTable → TomlTable) (h : k ≠ k') :
    removeKey (modifyTableAt t k f) k' = modifyTableAt (removeKey t k') k f :=
  removeKey_modifyFirst_comm t k k' _ h

theorem modifyTableAt_comm (t : TomlTable) (k k' : String)
    (f g : TomlTable → TomlTable) (h : k ≠ k') :
    modifyTableAt (modifyTableAt t k f) k' g
      = modifyTableAt (modifyTableAt t k' g) k f :=
  modifyFirst_comm t k k' _ _ h

/-! ### Value-level roundtrip lemmas: adding after removing restores the
added block exactly -/

theorem regAdd_roundtrip (r : TomlTable) :
    regAdd (removeKey (regAdd (removeKey r "rsproxy")) "rsproxy")
      = regAdd (removeKey r "rsproxy") := by
  unfold regAdd
  rw [removeKey_setKey_self, removeKey_removeKey_self]

theorem netAdd_roundtrip (n : TomlTable) :
    netAdd (removeKey (netAdd (removeKey n "git-fetch-with-cli")) "git-fetch-with-cli")
      = netAdd (removeKey n "git-fetch-with-cli") := by
  unfold netAdd
  rw [removeKey_setKey_self, removeKey_removeKey_self]

/-- Core table-level computation: on a table with no `rsproxy` and no
`rsproxy-sparse` entry, and no `replace-with` inside a table-valued
`crates-io`, stripping the proxy block after adding it and adding it again
reproduces the first addition. -/
theorem srcAdd_srcRm_srcAdd (t₁ : TomlTable)
    (h1 : lookupItem t₁ "rsproxy" = none)
    (h2 : lookupItem t₁ "rsproxy-sparse" = none)
    (h3 : ∀ c, lookupItem t₁ "crates-io" = some (Item.table c) →
      lookupItem c "replace-with" = none) :
    srcAdd (srcRm (srcAdd t₁)) = srcAdd t₁ := by
  have hrp : ("crates-io" : String) ≠ "rsproxy" := by decide
  have hrps : ("crates-io" : String) ≠ "rsproxy-sparse" := by decide
  have hpp : ("rsproxy" : String) ≠ "rsproxy-sparse" := by decide
  cases hc : lookupItem t₁ "crates-io" with
  | none =>
    have hadd : srcAdd t₁
        = setKey (setKey (setKey t₁ "crates-io" (Item.table [("replace-with", rwVal)]))
            "rsproxy" rpTbl) "rsproxy-sparse" rpsTbl := by
      unfold srcAdd; rw [hc]
    rw [hadd]
    have hstrip : srcRm (setKey (setKey (setKey t₁ "crates-io"
          (Item.table [("replace-with", rwVal)])) "rsproxy" rpTbl) "rsproxy-sparse" rpsTbl)
        = setKey t₁ "crates-io" (Item.table []) := by
      unfold srcRm
      rw [← setKey_modifyTableAt_comm _ _ _ _ _ hrps,
        ← setKey_modifyTableAt_comm _ _ _ _ _ hrp,
        modifyTableAt_setKey_table]
      rw [removeKey_setKey_comm _ _ _ _ (Ne.symm hpp), removeKey_setKey_self,
        removeKey_setKey_self, removeKey_setKey_comm _ _ _ _ hrp,
        removeKey_of_lookup_none _ _ h1, removeKey_setKey_comm _ _ _ _ hrps,
        removeKey_of_lookup_none _ _ h2]
      rfl
    rw [hstrip]
    unfold srcAdd
    rw [lookupItem_setKey_self, modifyTableAt_setKey_table]
    rfl
  | some v =>
    cases v with
    | table c =>
      have hrw := h3 c hc
      have hadd : srcAdd t₁
          = setKey (setKey (modifyTableAt t₁ "crates-io" (fun x => setKey x "replace-with" rwVal))
              "rsproxy" rpTbl) "rsproxy-sparse" rpsTbl := by
        unfold srcAdd; rw [hc]
      rw [hadd]
      have hstrip : srcRm (setKey (setKey (modifyTableAt t₁ "crates-io"
            (fun x => setKey x "replace-with" rwVal)) "rsproxy" rpTbl) "rsproxy-sparse" rpsTbl)
          = t₁ := by
        unfold srcRm
        rw [← setKey_modifyTableAt_comm _ _ _ _ _ hrps,
          ← setKey_modifyTableAt_comm _ _ _ _ _ hrp,
          modifyTableAt_comp]
        have hmid : modifyTableAt t₁ "crates-io"
            (fun x => removeKey (setKey x "replace-with" rwVal) "replace-with") = t₁ := by
          apply modifyTableAt_of_lookup_table _ _ _ c hc
          rw [removeKey_setKey_self, removeKey_of_lookup_none _ _ hrw]
        rw [hmid]
        rw [removeKey_setKey_comm _ _ _ _ (Ne.symm hpp), removeKey_setKey_self,
          removeKey_setKey_self, removeKey_of_lookup_none _ _ h1,
          removeKey_of_lookup_none _ _ h2]
      rw [hstrip, hadd]
    | str s =>
      have hadd : srcAdd t₁ = setKey (setKey t₁ "rsproxy" rpTbl) "rsproxy-sparse" rpsTbl := by
        unfold srcAdd; rw [hc]
      rw [hadd]
      have hstrip : srcRm (setKey (setKey t₁ "rsproxy" rpTbl) "rsproxy-sparse" rpsTbl) = t₁ := by
        unfold srcRm
        rw [← setKey_modifyTableAt_comm _ _ _ _ _ hrps,
          ← setKey_modifyTableAt_comm _ _ _ _ _ hrp,
          modifyTableAt_of_lookup_str _ _ _ s hc]
        rw [removeKey_setKey_comm _ _ _ _ (Ne.symm hpp), removeKey_setKey_self,
          removeKey_setKey_self, removeKey_of_lookup_none _ _ h1,
          removeKey_of_lookup_none _ _ h2]
      rw [hstrip, hadd]
    | bool b =>
      have hadd : srcAdd t₁ = setKey (setKey t₁ "rsproxy" rpTbl) "rsproxy-sparse" rpsTbl := by
        unfold srcAdd; rw [hc]
      rw [hadd]
      have hstrip : srcRm (setKey (setKey t₁ "rsproxy" rpTbl) "rsproxy-sparse" rpsTbl) = t₁ := by
        unfold srcRm
        rw [← setKey_modifyTableAt_comm _ _ _ _ _ hrps,
          ← setKey_modifyTableAt_comm _ _ _ _ _ hrp,
          modifyTableAt_of_lookup_bool _ _ _ b hc]
        rw [removeKey_setKey_comm _ _ _ _ (Ne.symm hpp), removeKey_setKey_self,
          removeKey_setKey_self, removeKey_of_lookup_none _ _ h1,
          removeKey_of_lookup_none _ _ h2]
      rw [hstrip, hadd]



/-! ### Lookup characterisation of the document steps -/

theorem lookupItem_modifyTableAt_self (t : TomlTable) (k : String)
    (f : TomlTable → TomlTable) :
    lookupItem (modifyTableAt t k f) k
      = (lookupItem t k).map (fun it =>
          match it with
          | Item.table inner => Item.table (f inner)
          | other => other) :=
  lookupItem_modifyFirst_self t k _

theorem lookupItem_srcAddDoc_ne (d : TomlTable) (k : String) (h : k ≠ "source") :
    lookupItem (srcAddDoc d) k = lookupItem d k := by
  unfold srcAddDoc
  cases hs : lookupItem d "source" with
  | none => exact lookupItem_setKey_ne _ _ _ _ h
  | some v =>
    cases v with
    | table t => exact lookupItem_modifyTableAt_ne _ _ _ _ h
    | str s => rfl
    | bool b => rfl

theorem lookupItem_regAddDoc_ne (d : TomlTable) (k : String) (h : k ≠ "registries") :
    lookupItem (regAddDoc d) k = lookupItem d k := by
  unfold regAddDoc
  cases hs : lookupItem d "registries" with
  | none => exact lookupItem_setKey_ne _ _ _ _ h
  | some v =>
    cases v with
    | table t => exact lookupItem_modifyTableAt_ne _ _ _ _ h
    | str s => rfl
    | bool b => rfl

theorem lookupItem_netAddDoc_ne (d : TomlTable) (k : String) (h : k ≠ "net") :
    lookupItem (netAddDoc d) k = lookupItem d k := by
  unfold netAddDoc
  cases hs : lookupItem d "net" with
  | none => exact lookupItem_setKey_ne _ _ _ _ h
  | some v =>
    cases v with
    | table t => exact lookupItem_modifyTableAt_ne _ _ _ _ h
    | str s => rfl
    | bool b => rfl

theorem lookupItem_srcAddDoc_self (d : TomlTable) :
    lookupItem (srcAddDoc d) "source"
      = match lookupItem d "source" with
        | none => some (Item.table (srcAdd []))
        | some (Item.table t) => some (Item.table (srcAdd t))
        | some v => some v := by
  unfold srcAddDoc
  cases hs : lookupItem d "source" with
  | none => simp [lookupItem_setKey_self]
  | some v =>
    cases v with
    | table t => simp [lookupItem_modifyTableAt_table _ _ _ t hs]
    | str s => simp [hs]
    | bool b => simp [hs]

theorem lookupItem_regAddDoc_self (d : TomlTable) :
    lookupItem (regAddDoc d) "registries"
      = match lookupItem d "registries" with
        | none => some (Item.table [("rsproxy", regTbl)])
        | some (Item.table r) => some (Item.table (regAdd r))
        | some v => some v := by
  unfold regAddDoc
  cases hs : lookupItem d "registries" with
  | none => simp [lookupItem_setKey_self]
  | some v =>
    cases v with
    | table t => simp [lookupItem_modifyTableAt_table _ _ _ t hs]
    | str s => simp [hs]
    | bool b => simp [hs]

theorem lookupItem_netAddDoc_self (d : TomlTable) :
    lookupItem (netAddDoc d) "net"
      = match lookupItem d "net" with
        | none => some (Item.table [("git-fetch-with-cli", Item.bool true)])
        | some (Item.table n) => some (Item.table (netAdd n))
        | some v => some v := by
  unfold netAddDoc
  cases hs : lookupItem d "net" with
  | none => simp [lookupItem_setKey_self]
  | some v =>
    cases v with
    | table t => simp [lookupItem_modifyTableAt_table _ _ _ t hs]
    | str s => simp [hs]
    | bool b => simp [hs]

theorem lookupItem_remove_ne (d : TomlTable) (k : String)
    (h1 : k ≠ "source") (h2 : k ≠ "registries") (h3 : k ≠ "net") :
    lookupItem (remove_proxy_config d) k = lookupItem d k := by
  rw [remove_proxy_config_eq, lookupItem_modifyTableAt_ne _ _ _ _ h3,
    lookupItem_modifyTableAt_ne _ _ _ _ h2, lookupItem_modifyTableAt_ne _ _ _ _ h1]

theorem lookupItem_remove_src (d : TomlTable) :
    lookupItem (remove_proxy_config d) "source"
      = match lookupItem d "source" with
        | some (Item.table t) => some (Item.table (srcRm t))
        | o => o := by
  rw [remove_proxy_config_eq,
    lookupItem_modifyTableAt_ne _ _ _ _ (by decide : ("source" : String) ≠ "net"),
    lookupItem_modifyTableAt_ne _ _ _ _ (by decide : ("source" : String) ≠ "registries"),
    lookupItem_modifyTableAt_self]
  cases lookupItem d "source" with
  | none => rfl
  | some v => cases v <;> rfl

theorem lookupItem_remove_reg (d : TomlTable) :
    lookupItem (remove_proxy_config d) "registries"
      = match lookupItem d "registries" with
        | some (Item.table r) => some (Item.table (removeKey r "rsproxy"))
        | o => o := by
  rw [remove_proxy_config_eq,
    lookupItem_modifyTableAt_ne _ _ _ _ (by decide : ("registries" : String) ≠ "net"),
    lookupItem_modifyTableAt_self,
    lookupItem_modifyTableAt_ne _ _ _ _ (by decide : ("registries" : String) ≠ "source")]
  cases lookupItem d "registries" with
  | none => rfl
  | some v => cases v <;> rfl

theorem lookupItem_remove_net (d : TomlTable) :
    lookupItem (remove_proxy_config d) "net"
      = match lookupItem d "net" with
        | some (Item.table n) => some (Item.table (removeKey n "git-fetch-with-cli"))
        | o => o := by
  rw [remove_proxy_config_eq, lookupItem_modifyTableAt_self,
    lookupItem_modifyTableAt_ne _ _ _ _ (by decide : ("net" : String) ≠ "registries"),
    lookupItem_modifyTableAt_ne _ _ _ _ (by decide : ("net" : String) ≠ "source")]
  cases lookupItem d "net" with
  | none => rfl
  | some v => cases v <;> rfl

/-! ### Lookup characterisation of the full `set_proxy` transformation -/

theorem lookupItem_set_doc_src (d : TomlTable) (u : String) :
    lookupItem (set_doc_transform d u) "source"
      = match lookupItem d "source" with
        | none => some (Item.table (srcAdd []))
        | some (Item.table t) => some (Item.table (srcAdd (srcRm t)))
        | some v => some v := by
  unfold set_doc_transform
  rw [add_proxy_config_eq,
    lookupItem_netAddDoc_ne _ _ (by decide : ("source" : String) ≠ "net"),
    lookupItem_regAddDoc_ne _ _ (by decide : ("source" : String) ≠ "registries"),
    lookupItem_srcAddDoc_self, lookupItem_remove_src]
  cases lookupItem d "source" with
  | none => rfl
  | some v => cases v <;> rfl

theorem lookupItem_set_doc_reg (d : TomlTable) (u : String) :
    lookupItem (set_doc_transform d u) "registries"
      = match lookupItem d "registries" with
        | none => some (Item.table [("rsproxy", regTbl)])
        | some (Item.table r) => some (Item.table (regAdd (removeKey r "rsproxy")))
        | some v => some v := by
  unfold set_doc_transform
  rw [add_proxy_config_eq,
    lookupItem_netAddDoc_ne _ _ (by decide : ("registries" : String) ≠ "net"),
    lookupItem_regAddDoc_self,
    lookupItem_srcAddDoc_ne _ _ (by decide : ("registries" : String) ≠ "source"),
    lookupItem_remove_reg]
  cases lookupItem d "registries" with
  | none => rfl
  | some v => cases v <;> rfl

theorem lookupItem_set_doc_net (d : TomlTable) (u : String) :
    lookupItem (set_doc_transform d u) "net"
      = match lookupItem d "net" with
        | none => some (Item.table [("git-fetch-with-cli", Item.bool true)])
        | some (Item.table n) => some (Item.table (netAdd (removeKey n "git-fetch-with-cli")))
        | some v => some v := by
  unfold set_doc_transform
  rw [add_proxy_config_eq, lookupItem_netAddDoc_self,
    lookupItem_regAddDoc_ne _ _ (by decide : ("net" : String) ≠ "registries"),
    lookupItem_srcAddDoc_ne _ _ (by decide : ("net" : String) ≠ "source"),
    lookupItem_remove_net]
  cases lookupItem d "net" with
  | none => rfl
  | some v => cases v <;> rfl

/-! ### Idempotence of the `set_proxy` document transformation -/

theorem srcRm_no_rp (t : TomlTable) : lookupItem (srcRm t) "rsproxy" = none := by
  unfold srcRm
  rw [lookupItem_removeKey_ne _ _ _ (by decide : ("rsproxy" : String) ≠ "rsproxy-sparse"),
    lookupItem_removeKey_self]

theorem srcRm_no_rps (t : TomlTable) : lookupItem (srcRm t) "rsproxy-sparse" = none :=
  lookupItem_removeKey_self _ _

theorem srcRm_cio (t : TomlTable) :
    ∀ c, lookupItem (srcRm t) "crates-io" = some (Item.table c) →
      lookupItem c "replace-with" = none := by
  intro c hc
  unfold srcRm at hc
  rw [lookupItem_removeKey_ne _ _ _ (by decide : ("crates-io" : String) ≠ "rsproxy-sparse"),
    lookupItem_removeKey_ne _ _ _ (by decide : ("crates-io" : String) ≠ "rsproxy"),
    lookupItem_modifyTableAt_self] at hc
  cases hl : lookupItem t "crates-io" with
  | none => rw [hl] at hc; simp at hc
  | some v =>
    rw [hl] at hc
    cases v with
    | table c0 =>
      simp at hc
      rw [← hc]
      exact lookupItem_removeKey_self _ _
    | str s => simp at hc
    | bool b => simp at hc

theorem srcAdd_srcRm_roundtrip (t : TomlTable) :
    srcAdd (srcRm (srcAdd (srcRm t))) = srcAdd (srcRm t) :=
  srcAdd_srcRm_srcAdd _ (srcRm_no_rp t) (srcRm_no_rps t) (srcRm_cio t)

theorem srcAdd_empty_roundtrip : srcAdd (srcRm (srcAdd [])) = srcAdd [] :=
  srcAdd_srcRm_srcAdd [] rfl rfl (by intro c hc; simp [lookupItem] at hc)

theorem srcAddDoc_of_present (d : TomlTable)
    (h : (lookupItem d "source").isSome = true) :
    srcAddDoc d = modifyTableAt d "source" srcAdd := by
  unfold srcAddDoc
  cases hx : lookupItem d "source" with
  | none => rw [hx] at h; simp at h
  | some v =>
    cases v with
    | table t => rfl
    | str s => rw [modifyTableAt_of_lookup_str _ _ _ s hx]
    | bool b => rw [modifyTableAt_of_lookup_bool _ _ _ b hx]

theorem regAddDoc_of_present (d : TomlTable)
    (h : (lookupItem d "registries").isSome = true) :
    regAddDoc d = modifyTableAt d "registries" regAdd := by
  unfold regAddDoc
  cases hx : lookupItem d "registries" with
  | none => rw [hx] at h; simp at h
  | some v =>
    cases v with
    | table t => rfl
    | str s => rw [modifyTableAt_of_lookup_str _ _ _ s hx]
    | bool b => rw [modifyTableAt_of_lookup_bool _ _ _ b hx]

theorem netAddDoc_of_present (d : TomlTable)
    (h : (lookupItem d "net").isSome = true) :
    netAddDoc d = modifyTableAt d "net" netAdd := by
  unfold netAddDoc
  cases hx : lookupItem d "net" with
  | none => rw [hx] at h; simp at h
  | some v =>
    cases v with
    | table t => rfl
    | str s => rw [modifyTableAt_of_lookup_str _ _ _ s hx]
    | bool b => rw [modifyTableAt_of_lookup_bool _ _ _ b hx]

theorem lookupItem_modifyTableAt_isSome (t : TomlTable) (k k' : String)
    (f : TomlTable → TomlTable) :
    (lookupItem (modifyTableAt t k f) k').isSome = (lookupItem t k').isSome := by
  by_cases h : k' = k
  · subst h
    rw [lookupItem_modifyTableAt_self]
    cases lookupItem t k' <;> rfl
  · rw [lookupItem_modifyTableAt_ne _ _ _ _ h]

/-- On a document where `source`, `registries` and `net` are all present, the
`set_proxy` transformation is a pure per-key rewrite: no table creation
happens and the three keys are rewritten independently. -/
theorem set_doc_all_present (d : TomlTable) (u : String)
    (hs : (lookupItem d "source").isSome = true)
    (hr : (lookupItem d "registries").isSome = true)
    (hn : (lookupItem d "net").isSome = true) :
    set_doc_transform d u
      = modifyTableAt
          (modifyTableAt (modifyTableAt d "source" (fun t => srcAdd (srcRm t)))
            "registries" (fun r => regAdd (removeKey r "rsproxy")))
          "net" (fun n => netAdd (removeKey n "git-fetch-with-cli")) := by
  have hsn : ("source" : String) ≠ "net" := by decide
  have hsr : ("source" : String) ≠ "registries" := by decide
  have hrn : ("registries" : String) ≠ "net" := by decide
  unfold set_doc_transform
  rw [add_proxy_config_eq, remove_proxy_config_eq]
  rw [srcAddDoc_of_present _ (by
    rw [lookupItem_modifyTableAt_isSome, lookupItem_modifyTableAt_isSome,
      lookupItem_modifyTableAt_isSome]
    exact hs)]
  rw [regAddDoc_of_present _ (by
    rw [lookupItem_modifyTableAt_isSome, lookupItem_modifyTableAt_isSome,
      lookupItem_modifyTableAt_isSome, lookupItem_modifyTableAt_isSome]
    exact hr)]
  rw [netAddDoc_of_present _ (by
    rw [lookupItem_modifyTableAt_isSome, lookupItem_modifyTableAt_isSome,
      lookupItem_modifyTableAt_isSome, lookupItem_modifyTableAt_isSome,
      lookupItem_modifyTableAt_isSome]
    exact hn)]
  rw [show modifyTableAt (modifyTableAt (modifyTableAt (modifyTableAt d "source" srcRm)
        "registries" (fun r => removeKey r "rsproxy")) "net"
        (fun n => removeKey n "git-fetch-with-cli")) "source" srcAdd
      = modifyTableAt (modifyTableAt (modifyTableAt d "source"
          (fun t => srcAdd (srcRm t))) "registries" (fun r => removeKey r "rsproxy"))
          "net" (fun n => removeKey n "git-fetch-with-cli") by
    rw [← modifyTableAt_comm _ _ _ _ _ hsn, ← modifyTableAt_comm _ _ _ _ _ hsr,
      modifyTableAt_comp]]
  rw [show modifyTableAt (modifyTableAt (modifyTableAt (modifyTableAt d "source"
        (fun t => srcAdd (srcRm t))) "registries" (fun r => removeKey r "rsproxy"))
        "net" (fun n => removeKey n "git-fetch-with-cli")) "registries" regAdd
      = modifyTableAt (modifyTableAt (modifyTableAt d "source"
          (fun t => srcAdd (srcRm t))) "registries"
          (fun r => regAdd (removeKey r "rsproxy")))
          "net" (fun n => removeKey n "git-fetch-with-cli") by
    rw [← modifyTableAt_comm _ _ _ _ _ hrn, modifyTableAt_comp]]
  rw [modifyTableAt_comp]

/-- Applying the `set_proxy` document transformation twice gives exactly the
same document (same entries in the same order) as applying it once. -/
theorem set_doc_transform_idem (d : TomlTable) (u : String) :
    set_doc_transform (set_doc_transform d u) u = set_doc_transform d u := by
  have hs := lookupItem_set_doc_src d u
  have hr := lookupItem_set_doc_reg d u
  have hn := lookupItem_set_doc_net d u
  have hs' : (lookupItem (set_doc_transform d u) "source").isSome = true := by
    rw [hs]
    cases lookupItem d "source" with
    | none => rfl
    | some v => cases v <;> rfl
  have hr' : (lookupItem (set_doc_transform d u) "registries").isSome = true := by
    rw [hr]
    cases lookupItem d "registries" with
    | none => rfl
    | some v => cases v <;> rfl
  have hn' : (lookupItem (set_doc_transform d u) "net").isSome = true := by
    rw [hn]
    cases lookupItem d "net" with
    | none => rfl
    | some v => cases v <;> rfl
  rw [set_doc_all_present _ u hs' hr' hn']
  have h1 : modifyTableAt (set_doc_transform d u) "source" (fun t => srcAdd (srcRm t))
      = set_doc_transform d u := by
    cases hd : lookupItem d "source" with
    | none =>
      rw [hd] at hs
      exact modifyTableAt_of_lookup_table _ _ _ _ hs srcAdd_empty_roundtrip
    | some v =>
      cases v with
      | table t =>
        rw [hd] at hs
        exact modifyTableAt_of_lookup_table _ _ _ _ hs (srcAdd_srcRm_roundtrip t)
      | str s0 =>
        rw [hd] at hs
        exact modifyTableAt_of_lookup_str _ _ _ s0 hs
      | bool b =>
        rw [hd] at hs
        exact modifyTableAt_of_lookup_bool _ _ _ b hs
  have h2 : modifyTableAt (set_doc_transform d u) "registries"
      (fun r => regAdd (removeKey r "rsproxy")) = set_doc_transform d u := by
    cases hd : lookupItem d "registries" with
    | none =>
      rw [hd] at hr
      exact modifyTableAt_of_lookup_table _ _ _ _ hr rfl
    | some v =>
      cases v with
      | table t =>
        rw [hd] at hr
        exact modifyTableAt_of_lookup_table _ _ _ _ hr (regAdd_roundtrip t)
      | str s0 =>
        rw [hd] at hr
        exact modifyTableAt_of_lookup_str _ _ _ s0 hr
      | bool b =>
        rw [hd] at hr
        exact modifyTableAt_of_lookup_bool _ _ _ b hr
  have h3 : modifyTableAt (set_doc_transform d u) "net"
      (fun n => netAdd (removeKey n "git-fetch-with-cli")) = set_doc_transform d u := by
    cases hd : lookupItem d "net" with
    | none =>
      rw [hd] at hn
      exact modifyTableAt_of_lookup_table _ _ _ _ hn rfl
    | some v =>
      cases v with
      | table t =>
        rw [hd] at hn
        exact modifyTableAt_of_lookup_table _ _ _ _ hn (netAdd_roundtrip t)
      | str s0 =>
        rw [hd] at hn
        exact modifyTableAt_of_lookup_str _ _ _ s0 hn
      | bool b =>
        rw [hd] at hn
        exact modifyTableAt_of_lookup_bool _ _ _ b hn
  rw [h1, h2, h3]

/-! ### The redirection-block invariant -/

/-- The entry at `key`, when present, is a table (the only shape on which the
program edits take effect). -/
def isTableOrAbsent (d : TomlTable) (k : String) : Bool :=
  match lookupItem d k with
  | none => true
  | some (Item.table _) => true
  | some _ => false

/-- The proxy-related entries of the document (`source`, `source.crates-io`,
`registries`, `net`), where present, are tables. -/
def goodShape (d : TomlTable) : Bool :=
  isTableOrAbsent d "source" &&
  (match lookupItem d "source" with
   | some (Item.table t) => isTableOrAbsent t "crates-io"
   | _ => true) &&
  isTableOrAbsent d "registries" &&
  isTableOrAbsent d "net"

/-- Exactly one redirection block is present: exactly one `rsproxy` and one
`rsproxy-sparse` source table, exactly one `replace-with` key under
`source.crates-io`, exactly one `registries.rsproxy` table and exactly one
`net.git-fetch-with-cli` key. -/
def oneRedirection (d : TomlTable) : Bool :=
  match lookupItem d "source" with
  | some (Item.table s) =>
      (countKey s "rsproxy" == 1) && (countKey s "rsproxy-sparse" == 1) &&
      (match lookupItem s "crates-io" with
       | some (Item.table c) => countKey c "replace-with" == 1
       | _ => false) &&
      (match lookupItem d "registries" with
       | some (Item.table r) => countKey r "rsproxy" == 1
       | _ => false) &&
      (match lookupItem d "net" with
       | some (Item.table n) => countKey n "git-fetch-with-cli" == 1
       | _ => false)
  | _ => false

theorem srcAdd_counts (t₁ : TomlTable)
    (h1 : lookupItem t₁ "rsproxy" = none)
    (h2 : lookupItem t₁ "rsproxy-sparse" = none) :
    countKey (srcAdd t₁) "rsproxy" = 1 ∧ countKey (srcAdd t₁) "rsproxy-sparse" = 1 := by
  unfold srcAdd
  have hp : lookupItem
      (match lookupItem t₁ "crates-io" with
       | some (Item.table _) =>
           modifyTableAt t₁ "crates-io" (fun c => setKey c "replace-with" rwVal)
       | some _ => t₁
       | none => setKey t₁ "crates-io" (Item.table [("replace-with", rwVal)]))
      "rsproxy" = none := by
    cases hc : lookupItem t₁ "crates-io" with
    | none =>
      rw [lookupItem_setKey_ne _ _ _ _ (by decide : ("rsproxy" : String) ≠ "crates-io")]
      exact h1
    | some v =>
      cases v with
      | table c =>
        rw [lookupItem_modifyTableAt_ne _ _ _ _
          (by decide : ("rsproxy" : String) ≠ "crates-io")]
        exact h1
      | str s => exact h1
      | bool b => exact h1
  have hps : lookupItem
      (match lookupItem t₁ "crates-io" with
       | some (Item.table _) =>
           modifyTableAt t₁ "crates-io" (fun c => setKey c "replace-with" rwVal)
       | some _ => t₁
       | none => setKey t₁ "crates-io" (Item.table [("replace-with", rwVal)]))
      "rsproxy-sparse" = none := by
    cases hc : lookupItem t₁ "crates-io" with
    | none =>
      rw [lookupItem_setKey_ne _ _ _ _ (by decide : ("rsproxy-sparse" : String) ≠ "crates-io")]
      exact h2
    | some v =>
      cases v with
      | table c =>
        rw [lookupItem_modifyTableAt_ne _ _ _ _
          (by decide : ("rsproxy-sparse" : String) ≠ "crates-io")]
        exact h2
      | str s => exact h2
      | bool b => exact h2
  constructor
  · rw [countKey_setKey_ne _ _ _ _ (by decide : ("rsproxy" : String) ≠ "rsproxy-sparse")]
    exact countKey_setKey_of_lookup_none _ _ _ hp
  · apply countKey_setKey_of_lookup_none
    rw [lookupItem_setKey_ne _ _ _ _ (by decide : ("rsproxy-sparse" : String) ≠ "rsproxy")]
    exact hps

theorem srcAdd_cio_count (t₁ : TomlTable)
    (h3 : ∀ c, lookupItem t₁ "crates-io" = some (Item.table c) →
      lookupItem c "replace-with" = none)
    (h4 : isTableOrAbsent t₁ "crates-io" = true) :
    ∃ c, lookupItem (srcAdd t₁) "crates-io" = some (Item.table c)
      ∧ countKey c "replace-with" = 1 := by
  unfold srcAdd
  rw [lookupItem_setKey_ne _ _ _ _ (by decide : ("crates-io" : String) ≠ "rsproxy-sparse"),
    lookupItem_setKey_ne _ _ _ _ (by decide : ("crates-io" : String) ≠ "rsproxy")]
  cases hc : lookupItem t₁ "crates-io" with
  | none =>
    refine ⟨[("replace-with", rwVal)], ?_, rfl⟩
    rw [lookupItem_setKey_self]
  | some v =>
    cases v with
    | table c0 =>
      refine ⟨setKey c0 "replace-with" rwVal, ?_, ?_⟩
      · exact lookupItem_modifyTableAt_table _ _ _ c0 hc
      · exact countKey_setKey_of_lookup_none _ _ _ (h3 c0 hc)
    | str s => rw [isTableOrAbsent, hc] at h4; cases h4
    | bool b => rw [isTableOrAbsent, hc] at h4; cases h4

/-- On a well-shaped document, applying the `set_proxy` transformation
leaves exactly one redirection block. -/
theorem oneRedirection_after_set (d : TomlTable) (u : String)
    (h : goodShape d = true) : oneRedirection (set_doc_transform d u) = true := by
  unfold goodShape at h
  simp only [Bool.and_eq_true] at h
  obtain ⟨⟨⟨hsrc, hcio⟩, hreg⟩, hnet⟩ := h
  have hs := lookupItem_set_doc_src d u
  have hr := lookupItem_set_doc_reg d u
  have hn := lookupItem_set_doc_net d u
  have hregpart : (match lookupItem (set_doc_transform d u) "registries" with
      | some (Item.table r) => countKey r "rsproxy" == 1
      | _ => false) = true := by
    rw [hr]
    cases hdr : lookupItem d "registries" with
    | none => rfl
    | some v =>
      cases v with
      | table r =>
        simp only [regAdd]
        have hcnt : countKey (setKey (removeKey r "rsproxy") "rsproxy" regTbl) "rsproxy" = 1 :=
          countKey_setKey_of_lookup_none _ _ _ (lookupItem_removeKey_self r "rsproxy")
        simp [hcnt]
      | str s => rw [isTableOrAbsent, hdr] at hreg; cases hreg
      | bool b => rw [isTableOrAbsent, hdr] at hreg; cases hreg
  have hnetpart : (match lookupItem (set_doc_transform d u) "net" with
      | some (Item.table n) => countKey n "git-fetch-with-cli" == 1
      | _ => false) = true := by
    rw [hn]
    cases hdn : lookupItem d "net" with
    | none => rfl
    | some v =>
      cases v with
      | table n =>
        simp only [netAdd]
        have hcnt : countKey (setKey (removeKey n "git-fetch-with-cli") "git-fetch-with-cli"
            (Item.bool true)) "git-fetch-with-cli" = 1 :=
          countKey_setKey_of_lookup_none _ _ _
            (lookupItem_removeKey_self n "git-fetch-with-cli")
        simp [hcnt]
      | str s => rw [isTableOrAbsent, hdn] at hnet; cases hnet
      | bool b => rw [isTableOrAbsent, hdn] at hnet; cases hnet
  unfold oneRedirection
  rw [hs]
  cases hds : lookupItem d "source" with
  | none =>
    obtain ⟨hc1, hc2⟩ := srcAdd_counts [] rfl rfl
    obtain ⟨c, hcl, hcc⟩ := srcAdd_cio_count []
      (by intro c hc; simp [lookupItem] at hc) rfl
    simp only [hcl, hc1, hc2, hcc, hregpart, hnetpart]
    rfl
  | some v =>
    cases v with
    | table t =>
      obtain ⟨hc1, hc2⟩ := srcAdd_counts (srcRm t) (srcRm_no_rp t) (srcRm_no_rps t)
      have h4 : isTableOrAbsent (srcRm t) "crates-io" = true := by
        rw [hds] at hcio
        have hcio2 : (match lookupItem t "crates-io" with
            | none => true
            | some (Item.table _) => true
            | some _ => false) = true := hcio
        unfold isTableOrAbsent
        unfold srcRm
        rw [lookupItem_removeKey_ne _ _ _
            (by decide : ("crates-io" : String) ≠ "rsproxy-sparse"),
          lookupItem_removeKey_ne _ _ _ (by decide : ("crates-io" : String) ≠ "rsproxy"),
          lookupItem_modifyTableAt_self]
        cases hct : lookupItem t "crates-io" with
        | none => rfl
        | some w =>
          cases w with
          | table c0 => rfl
          | str s => rw [hct] at hcio2; cases hcio2
          | bool b => rw [hct] at hcio2; cases hcio2
      obtain ⟨c, hcl, hcc⟩ := srcAdd_cio_count (srcRm t) (srcRm_cio t) h4
      simp only [hcl, hc1, hc2, hcc, hregpart, hnetpart]
      rfl
    | str s => rw [isTableOrAbsent, hds] at hsrc; cases hsrc
    | bool b => rw [isTableOrAbsent, hds] at hsrc; cases hsrc

/-! ### Frame lemmas: everything outside the five proxy entries is untouched -/

theorem lookupItem_srcRm_ne (t : TomlTable) (k2 : String)
    (h1 : k2 ≠ "crates-io") (h2 : k2 ≠ "rsproxy") (h3 : k2 ≠ "rsproxy-sparse") :
    lookupItem (srcRm t) k2 = lookupItem t k2 := by
  unfold srcRm
  rw [lookupItem_removeKey_ne _ _ _ h3, lookupItem_removeKey_ne _ _ _ h2,
    lookupItem_modifyTableAt_ne _ _ _ _ h1]

theorem lookupItem_srcAdd_ne (t : TomlTable) (k2 : String)
    (h1 : k2 ≠ "crates-io") (h2 : k2 ≠ "rsproxy") (h3 : k2 ≠ "rsproxy-sparse") :
    lookupItem (srcAdd t) k2 = lookupItem t k2 := by
  unfold srcAdd
  rw [lookupItem_setKey_ne _ _ _ _ h3, lookupItem_setKey_ne _ _ _ _ h2]
  cases hc : lookupItem t "crates-io" with
  | none => exact lookupItem_setKey_ne _ _ _ _ h1
  | some v =>
    cases v with
    | table c => exact lookupItem_modifyTableAt_ne _ _ _ _ h1
    | str s => rfl
    | bool b => rfl

theorem lookupItem_srcRm_cio (t : TomlTable) :
    lookupItem (srcRm t) "crates-io"
      = match lookupItem t "crates-io" with
        | some (Item.table c) => some (Item.table (removeKey c "replace-with"))
        | o => o := by
  unfold srcRm
  rw [lookupItem_removeKey_ne _ _ _ (by decide : ("crates-io" : String) ≠ "rsproxy-sparse"),
    lookupItem_removeKey_ne _ _ _ (by decide : ("crates-io" : String) ≠ "rsproxy"),
    lookupItem_modifyTableAt_self]
  cases lookupItem t "crates-io" with
  | none => rfl
  | some v => cases v <;> rfl

theorem lookupItem_srcAdd_cio (t : TomlTable) :
    lookupItem (srcAdd t) "crates-io"
      = match lookupItem t "crates-io" with
        | none => some (Item.table [("replace-with", rwVal)])
        | some (Item.table c) => some (Item.table (setKey c "replace-with" rwVal))
        | some v => some v := by
  unfold srcAdd
  rw [lookupItem_setKey_ne _ _ _ _ (by decide : ("crates-io" : String) ≠ "rsproxy-sparse"),
    lookupItem_setKey_ne _ _ _ _ (by decide : ("crates-io" : String) ≠ "rsproxy")]
  cases hc : lookupItem t "crates-io" with
  | none => rw [lookupItem_setKey_self]
  | some v =>
    cases v with
    | table c => rw [lookupItem_modifyTableAt_table _ _ _ c hc]
    | str s => rw [hc]
    | bool b => rw [hc]

theorem frame_top_set (d : TomlTable) (u : String) (k : String)
    (h1 : k ≠ "source") (h2 : k ≠ "registries") (h3 : k ≠ "net") :
    lookupItem (set_doc_transform d u) k = lookupItem d k := by
  unfold set_doc_transform
  rw [add_proxy_config_eq, lookupItem_netAddDoc_ne _ _ h3,
    lookupItem_regAddDoc_ne _ _ h2, lookupItem_srcAddDoc_ne _ _ h1,
    lookupItem_remove_ne _ _ h1 h2 h3]

theorem frame_src_set (d : TomlTable) (u : String) (k2 : String)
    (h1 : k2 ≠ "crates-io") (h2 : k2 ≠ "rsproxy") (h3 : k2 ≠ "rsproxy-sparse") :
    lookup2 (set_doc_transform d u) "source" k2 = lookup2 d "source" k2 := by
  unfold lookup2
  rw [lookupItem_set_doc_src]
  cases lookupItem d "source" with
  | none =>
    show lookupIn (some (Item.table (srcAdd []))) k2 = lookupIn none k2
    show lookupItem (srcAdd []) k2 = none
    rw [lookupItem_srcAdd_ne _ _ h1 h2 h3]
    rfl
  | some v =>
    cases v with
    | table t =>
      show lookupItem (srcAdd (srcRm t)) k2 = lookupItem t k2
      rw [lookupItem_srcAdd_ne _ _ h1 h2 h3, lookupItem_srcRm_ne _ _ h1 h2 h3]
    | str s => rfl
    | bool b => rfl

theorem frame_src_remove (d : TomlTable) (k2 : String)
    (h1 : k2 ≠ "crates-io") (h2 : k2 ≠ "rsproxy") (h3 : k2 ≠ "rsproxy-sparse") :
    lookup2 (remove_proxy_config d) "source" k2 = lookup2 d "source" k2 := by
  unfold lookup2
  rw [lookupItem_remove_src]
  cases lookupItem d "source" with
  | none => rfl
  | some v =>
    cases v with
    | table t =>
      show lookupItem (srcRm t) k2 = lookupItem t k2
      rw [lookupItem_srcRm_ne _ _ h1 h2 h3]
    | str s => rfl
    | bool b => rfl

theorem frame_cio_set (d : TomlTable) (u : String) (k3 : String)
    (h : k3 ≠ "replace-with") :
    lookup3 (set_doc_transform d u) "source" "crates-io" k3
      = lookup3 d "source" "crates-io" k3 := by
  unfold lookup3 lookup2
  rw [lookupItem_set_doc_src]
  cases lookupItem d "source" with
  | none =>
    show lookupIn (lookupIn (some (Item.table (srcAdd []))) "crates-io") k3
      = lookupIn (lookupIn none "crates-io") k3
    show lookupIn (lookupItem (srcAdd []) "crates-io") k3 = lookupIn none k3
    rw [lookupItem_srcAdd_cio]
    show lookupItem [("replace-with", rwVal)] k3 = none
    simp [lookupItem, Ne.symm h]
  | some v =>
    cases v with
    | table t =>
      show lookupIn (lookupItem (srcAdd (srcRm t)) "crates-io") k3
        = lookupIn (lookupItem t "crates-io") k3
      rw [lookupItem_srcAdd_cio, lookupItem_srcRm_cio]
      cases lookupItem t "crates-io" with
      | none =>
        show lookupItem [("replace-with", rwVal)] k3 = none
        simp [lookupItem, Ne.symm h]
      | some w =>
        cases w with
        | table c =>
          show lookupItem (setKey (removeKey c "replace-with") "replace-with" rwVal) k3
            = lookupItem c k3
          rw [lookupItem_setKey_ne _ _ _ _ h, lookupItem_removeKey_ne _ _ _ h]
        | str s => rfl
        | bool b => rfl
    | str s => rfl
    | bool b => rfl

theorem frame_cio_remove (d : TomlTable) (k3 : String) (h : k3 ≠ "replace-with") :
    lookup3 (remove_proxy_config d) "source" "crates-io" k3
      = lookup3 d "source" "crates-io" k3 := by
  unfold lookup3 lookup2
  rw [lookupItem_remove_src]
  cases lookupItem d "source" with
  | none => rfl
  | some v =>
    cases v with
    | table t =>
      show lookupIn (lookupItem (srcRm t) "crates-io") k3
        = lookupIn (lookupItem t "crates-io") k3
      rw [lookupItem_srcRm_cio]
      cases lookupItem t "crates-io" with
      | none => rfl
      | some w =>
        cases w with
        | table c =>
          show lookupItem (removeKey c "replace-with") k3 = lookupItem c k3
          rw [lookupItem_removeKey_ne _ _ _ h]
        | str s => rfl
        | bool b => rfl
    | str s => rfl
    | bool b => rfl

theorem frame_reg_set (d : TomlTable) (u : String) (k2 : String) (h : k2 ≠ "rsproxy") :
    lookup2 (set_doc_transform d u) "registries" k2 = lookup2 d "registries" k2 := by
  unfold lookup2
  rw [lookupItem_set_doc_reg]
  cases lookupItem d "registries" with
  | none =>
    show lookupItem [("rsproxy", regTbl)] k2 = none
    simp [lookupItem, Ne.symm h]
  | some v =>
    cases v with
    | table r =>
      show lookupItem (regAdd (removeKey r "rsproxy")) k2 = lookupItem r k2
      unfold regAdd
      rw [lookupItem_setKey_ne _ _ _ _ h, lookupItem_removeKey_ne _ _ _ h]
    | str s => rfl
    | bool b => rfl

theorem frame_reg_remove (d : TomlTable) (k2 : String) (h : k2 ≠ "rsproxy") :
    lookup2 (remove_proxy_config d) "registries" k2 = lookup2 d "registries" k2 := by
  unfold lookup2
  rw [lookupItem_remove_reg]
  cases lookupItem d "registries" with
  | none => rfl
  | some v =>
    cases v with
    | table r =>
      show lookupItem (removeKey r "rsproxy") k2 = lookupItem r k2
      rw [lookupItem_removeKey_ne _ _ _ h]
    | str s => rfl
    | bool b => rfl

theorem frame_net_set (d : TomlTable) (u : String) (k2 : String)
    (h : k2 ≠ "git-fetch-with-cli") :
    lookup2 (set_doc_transform d u) "net" k2 = lookup2 d "net" k2 := by
  unfold lookup2
  rw [lookupItem_set_doc_net]
  cases lookupItem d "net" with
  | none =>
    show lookupItem [("git-fetch-with-cli", Item.bool true)] k2 = none
    simp [lookupItem, Ne.symm h]
  | some v =>
    cases v with
    | table n =>
      show lookupItem (netAdd (removeKey n "git-fetch-with-cli")) k2 = lookupItem n k2
      unfold netAdd
      rw [lookupItem_setKey_ne _ _ _ _ h, lookupItem_removeKey_ne _ _ _ h]
    | str s => rfl
    | bool b => rfl

theorem frame_net_remove (d : TomlTable) (k2 : String) (h : k2 ≠ "git-fetch-with-cli") :
    lookup2 (remove_proxy_config d) "net" k2 = lookup2 d "net" k2 := by
  unfold lookup2
  rw [lookupItem_remove_net]
  cases lookupItem d "net" with
  | none => rfl
  | some v =>
    cases v with
    | table n =>
      show lookupItem (removeKey n "git-fetch-with-cli") k2 = lookupItem n k2
      rw [lookupItem_removeKey_ne _ _ _ h]
    | str s => rfl
    | bool b => rfl

/-! ### `remove_proxy_config` leaves no proxy entry behind -/

theorem remove_clears (d : TomlTable) :
    lookup3 (remove_proxy_config d) "source" "crates-io" "replace-with" = none ∧
    lookup2 (remove_proxy_config d) "source" "rsproxy" = none ∧
    lookup2 (remove_proxy_config d) "source" "rsproxy-sparse" = none ∧
    lookup2 (remove_proxy_config d) "registries" "rsproxy" = none ∧
    lookup2 (remove_proxy_config d) "net" "git-fetch-with-cli" = none := by
  refine ⟨?_, ?_, ?_, ?_, ?_⟩
  · unfold lookup3 lookup2
    rw [lookupItem_remove_src]
    cases lookupItem d "source" with
    | none => rfl
    | some v =>
      cases v with
      | table t =>
        show lookupIn (lookupItem (srcRm t) "crates-io") "replace-with" = none
        rw [lookupItem_srcRm_cio]
        cases lookupItem t "crates-io" with
        | none => rfl
        | some w =>
          cases w with
          | table c =>
            show lookupItem (removeKey c "replace-with") "replace-with" = none
            exact lookupItem_removeKey_self _ _
          | str s => rfl
          | bool b => rfl
      | str s => rfl
      | bool b => rfl
  · unfold lookup2
    rw [lookupItem_remove_src]
    cases lookupItem d "source" with
    | none => rfl
    | some v =>
      cases v with
      | table t => exact srcRm_no_rp t
      | str s => rfl
      | bool b => rfl
  · unfold lookup2
    rw [lookupItem_remove_src]
    cases lookupItem d "source" with
    | none => rfl
    | some v =>
      cases v with
      | table t => exact srcRm_no_rps t
      | str s => rfl
      | bool b => rfl
  · unfold lookup2
    rw [lookupItem_remove_reg]
    cases lookupItem d "registries" with
    | none => rfl
    | some v =>
      cases v with
      | table r => exact lookupItem_removeKey_self _ _
      | str s => rfl
      | bool b => rfl
  · unfold lookup2
    rw [lookupItem_remove_net]
    cases lookupItem d "net" with
    | none => rfl
    | some v =>
      cases v with
      | table n => exact lookupItem_removeKey_self _ _
      | str s => rfl
      | bool b => rfl

/-! ### File-system model

`set_proxy` / `clear_proxy` interact with one config file and its backup.
TOML parsing and rendering are delegated by the source to `toml_edit`
(`content.parse::<DocumentMut>()` and `doc.to_string()`), so they are
abstract parameters here; a parse failure is `none`, and the code falls back
to the empty document (`unwrap_or_else(|_| DocumentMut::new())`). -/

/-- The two files the program touches: the config file content and the
backup file content (`none` = the file does not exist). -/
structure FS where
  config : Option String
  backup : Option String

/-- `set_proxy` body after URL resolution (main.rs lines 56-100): read the
existing file (or start from the empty document, also on parse failure),
copy the existing file to the backup, transform, write. -/
def set_proxy_fs (parse : String → Option TomlTable) (render : TomlTable → String)
    (url : String) (fs : FS) : FS :=
  let doc : TomlTable :=
    match fs.config with
    | some content => (parse content).getD []
    | none => []
  let backup : Option String :=
    match fs.config with
    | some content => some content
    | none => fs.backup
  { config := some (render (set_doc_transform doc url)), backup := backup }

/-- The stderr lines printed on an unknown proxy name (main.rs lines 47-52). -/
def unknown_proxy_stderr : List String :=
  "Error: Unknown proxy name or invalid URL." ::
  "Available predefined proxy names:" ::
  (get_predefined_proxies.map (fun p => "  - " ++ p.1) ++
    ["Or provide a custom URL starting with http:// or https://."])

/-- Full `set_proxy` run: resolve the proxy argument; on failure leave the
file system alone, print the alias list and exit with status 1 (the
`std::process::exit(1)` on line 53); otherwise edit the file and exit 0.
Result: (file system, exit status, stderr lines). -/
def set_proxy_run (parse : String → Option TomlTable) (render : TomlTable → String)
    (proxy : String) (fs : FS) : FS × Nat × List String :=
  match resolve_proxy proxy with
  | some url => (set_proxy_fs parse render url fs, 0, [])
  | none => (fs, 1, unknown_proxy_stderr)

/-- `clear_proxy` (main.rs lines 104-137): missing file is a no-op success;
otherwise back up, strip the proxy keys (empty document on parse failure),
write back.  Result: (file system, exit status). -/
def clear_proxy_run (parse : String → Option TomlTable) (render : TomlTable → String)
    (fs : FS) : FS × Nat :=
  match fs.config with
  | none => (fs, 0)
  | some content =>
      ({ config := some (render (remove_proxy_config ((parse content).getD []))),
         backup := some content }, 0)

/-- One file mutation performed by the program. -/
inductive FsOp where
  | copyToBackup (content : String) : FsOp
  | writeConfig (content : String) : FsOp

/-- The sequence of file mutations `set_proxy` performs (after a successful
URL resolution), in program order: when the config file exists, first
`fs::copy` to the backup (line 78), then `fs::write` of the new content
(line 92); when it does not exist, only the write. -/
def set_proxy_trace (parse : String → Option TomlTable) (render : TomlTable → String)
    (url : String) (existing : Option String) : List FsOp :=
  match existing with
  | some content =>
      [FsOp.copyToBackup content,
       FsOp.writeConfig (render (set_doc_transform ((parse content).getD []) url))]
  | none =>
      [FsOp.writeConfig (render (set_doc_transform [] url))]

/-- The sequence of file mutations `clear_proxy` performs: nothing when the
file is missing (lines 111-114); otherwise `fs::copy` to the backup
(line 118) and then the write of the stripped document (line 132). -/
def clear_proxy_trace (parse : String → Option TomlTable) (render : TomlTable → String)
    (existing : Option String) : List FsOp :=
  match existing with
  | none => []
  | some content =>
      [FsOp.copyToBackup content,
       FsOp.writeConfig (render (remove_proxy_config ((parse content).getD [])))]

/-- Trivial parser used to instantiate witnesses: every content is
unparseable. -/
def parse0 : String → Option TomlTable := fun _ => none

/-- Trivial renderer used to instantiate witnesses. -/
def render0 : TomlTable → String := fun _ => ""

/-- An empty file system (no config file, no backup). -/
def fs0 : FS := { config := none, backup := none }

/-! ### Claim theorems -/

/-- C1 (code bug evidence): `set_proxy("ustc")` resolves the alias to the
ustc index URL, but the document written by the transformation carries the
hard-coded rsproxy.cn URLs in both redirection entries
(`registries.rsproxy.index` and `source.rsproxy.registry`) — not the
resolved URL, which differs from it.  `add_proxy_config` never reads its
`proxy_url` argument. -/
theorem set_proxy_writes_hardcoded_rsproxy_url :
    resolve_proxy "ustc" = some "https://mirrors.ustc.edu.cn/crates.io-index/"
    ∧ lookup3 (set_doc_transform [] "https://mirrors.ustc.edu.cn/crates.io-index/")
        "registries" "rsproxy" "index" = some (Item.str "https://rsproxy.cn/crates.io-index")
    ∧ lookup3 (set_doc_transform [] "https://mirrors.ustc.edu.cn/crates.io-index/")
        "source" "rsproxy" "registry" = some (Item.str "https://rsproxy.cn/crates.io-index")
    ∧ ("https://rsproxy.cn/crates.io-index" : String)
        ≠ "https://mirrors.ustc.edu.cn/crates.io-index/" :=
  ⟨rfl, rfl, rfl, by decide⟩

/-- C2: every entry outside the five proxy-related paths
(`source.crates-io.replace-with`, `source.rsproxy`, `source.rsproxy-sparse`,
`registries.rsproxy`, `net.git-fetch-with-cli`) is unchanged by both the
`set_proxy` document transformation and the `clear_proxy` document
transformation (`remove_proxy_config`). -/
theorem proxy_edits_preserve_unrelated (d : TomlTable) (u : String) :
    (∀ k, k ≠ "source" → k ≠ "registries" → k ≠ "net" →
      lookupItem (set_doc_transform d u) k = lookupItem d k ∧
      lookupItem (remove_proxy_config d) k = lookupItem d k) ∧
    (∀ k2, k2 ≠ "crates-io" → k2 ≠ "rsproxy" → k2 ≠ "rsproxy-sparse" →
      lookup2 (set_doc_transform d u) "source" k2 = lookup2 d "source" k2 ∧
      lookup2 (remove_proxy_config d) "source" k2 = lookup2 d "source" k2) ∧
    (∀ k3, k3 ≠ "replace-with" →
      lookup3 (set_doc_transform d u) "source" "crates-io" k3
        = lookup3 d "source" "crates-io" k3 ∧
      lookup3 (remove_proxy_config d) "source" "crates-io" k3
        = lookup3 d "source" "crates-io" k3) ∧
    (∀ k2, k2 ≠ "rsproxy" →
      lookup2 (set_doc_transform d u) "registries" k2 = lookup2 d "registries" k2 ∧
      lookup2 (remove_proxy_config d) "registries" k2 = lookup2 d "registries" k2) ∧
    (∀ k2, k2 ≠ "git-fetch-with-cli" →
      lookup2 (set_doc_transform d u) "net" k2 = lookup2 d "net" k2 ∧
      lookup2 (remove_proxy_config d) "net" k2 = lookup2 d "net" k2) :=
  ⟨fun k h1 h2 h3 => ⟨frame_top_set d u k h1 h2 h3, lookupItem_remove_ne d k h1 h2 h3⟩,
   fun k2 h1 h2 h3 => ⟨frame_src_set d u k2 h1 h2 h3, frame_src_remove d k2 h1 h2 h3⟩,
   fun k3 h => ⟨frame_cio_set d u k3 h, frame_cio_remove d k3 h⟩,
   fun k2 h => ⟨frame_reg_set d u k2 h, frame_reg_remove d k2 h⟩,
   fun k2 h => ⟨frame_net_set d u k2 h, frame_net_remove d k2 h⟩⟩

/-- Witness for C2 at a concrete document: the unrelated `build` entry is
untouched by `set_proxy`. -/
theorem proxy_edits_preserve_unrelated_witness :
    lookupItem (set_doc_transform [("build", Item.str "jobs")] "https://rsproxy.cn/") "build"
      = lookupItem [("build", Item.str "jobs")] "build" :=
  ((proxy_edits_preserve_unrelated [("build", Item.str "jobs")] "https://rsproxy.cn/").1
    "build" (by decide) (by decide) (by decide)).1

/-- C3 counterexample: when the existing document stores `source` as a plain
string, `set_proxy` completes but installs no redirection at all — the
result does not contain exactly one redirection block (it contains none:
there is no `source.crates-io.replace-with`). -/
theorem set_proxy_no_redirection_cex :
    oneRedirection (set_doc_transform [("source", Item.str "x")]
      "https://rsproxy.cn/crates.io-index/") = false
    ∧ lookup3 (set_doc_transform [("source", Item.str "x")]
        "https://rsproxy.cn/crates.io-index/") "source" "crates-io" "replace-with" = none :=
  ⟨rfl, rfl⟩

/-- C3 (amended): the `set_proxy` document transformation is idempotent on
every document — applying it twice with the same URL gives exactly the same
document as applying it once — and, provided the document's `source`,
`source.crates-io`, `registries` and `net` entries (where present) are
tables, the result contains exactly one redirection block. -/
theorem set_proxy_idempotent_one_redirection (d : TomlTable) (u : String) :
    set_doc_transform (set_doc_transform d u) u = set_doc_transform d u
    ∧ (goodShape d = true → oneRedirection (set_doc_transform d u) = true) :=
  ⟨set_doc_transform_idem d u, oneRedirection_after_set d u⟩

/-- Witness for C3 at the empty document. -/
theorem set_proxy_idempotent_one_redirection_witness :
    oneRedirection (set_doc_transform [] "https://rsproxy.cn/crates.io-index/") = true :=
  (set_proxy_idempotent_one_redirection [] "https://rsproxy.cn/crates.io-index/").2 rfl

/-- C4: for every document and every known alias, running the `set_proxy`
document transformation and then the `clear_proxy` document transformation
leaves none of the five proxy-related entries in the document. -/
theorem set_then_clear_no_proxy_keys (d : TomlTable) (name url : String)
    (halias : name ∈ get_predefined_proxies.map Prod.fst)
    (hres : resolve_proxy name = some url) :
    lookup3 (remove_proxy_config (set_doc_transform d url))
        "source" "crates-io" "replace-with" = none ∧
    lookup2 (remove_proxy_config (set_doc_transform d url)) "source" "rsproxy" = none ∧
    lookup2 (remove_proxy_config (set_doc_transform d url)) "source" "rsproxy-sparse" = none ∧
    lookup2 (remove_proxy_config (set_doc_transform d url)) "registries" "rsproxy" = none ∧
    lookup2 (remove_proxy_config (set_doc_transform d url)) "net" "git-fetch-with-cli" = none :=
  remove_clears (set_doc_transform d url)

/-- Witness for C4 at the empty document and the `ustc` alias. -/
theorem set_then_clear_no_proxy_keys_witness :
    lookup2 (remove_proxy_config (set_doc_transform []
      "https://mirrors.ustc.edu.cn/crates.io-index/")) "source" "rsproxy" = none :=
  (set_then_clear_no_proxy_keys [] "ustc" "https://mirrors.ustc.edu.cn/crates.io-index/"
    (by decide) rfl).2.1

/-- C5: whenever the config file exists, both `set_proxy` and `clear_proxy`
first copy its exact pre-edit content to the backup file and only then write
the config file: in the mutation trace the backup copy (carrying the
byte-for-byte pre-edit content) comes first, and everything after it is a
config write. -/
theorem backup_before_mutation (parse : String → Option TomlTable)
    (render : TomlTable → String) (url content : String) :
    ∃ rest₁ rest₂,
      set_proxy_trace parse render url (some content)
        = FsOp.copyToBackup content :: rest₁
      ∧ (∀ op ∈ rest₁, ∃ s, op = FsOp.writeConfig s)
      ∧ clear_proxy_trace parse render (some content)
        = FsOp.copyToBackup content :: rest₂
      ∧ (∀ op ∈ rest₂, ∃ s, op = FsOp.writeConfig s) := by
  refine ⟨[FsOp.writeConfig (render (set_doc_transform ((parse content).getD []) url))],
    [FsOp.writeConfig (render (remove_proxy_config ((parse content).getD [])))],
    rfl, ?_, rfl, ?_⟩
  · intro op hop
    rw [List.mem_singleton] at hop
    exact ⟨_, hop⟩
  · intro op hop
    rw [List.mem_singleton] at hop
    exact ⟨_, hop⟩

/-- C6 counterexample: the input string `"USTC"` is not one of the four
predefined alias names and does not start with `http://` or `https://`, yet
`set_proxy` accepts it (the lookup lowercases the input): it exits with
status 0 and modifies the config file. -/
theorem unknown_proxy_case_insensitive_cex :
    ("USTC" ∉ get_predefined_proxies.map Prod.fst)
    ∧ startsWithStr "USTC" "http://" = false
    ∧ startsWithStr "USTC" "https://" = false
    ∧ resolve_proxy "USTC" = some "https://mirrors.ustc.edu.cn/crates.io-index/"
    ∧ (set_proxy_run parse0 render0 "USTC" fs0).2.1 = 0
    ∧ (set_proxy_run parse0 render0 "USTC" fs0).1.config = some ""
    ∧ fs0.config = none :=
  ⟨by decide, rfl, rfl, rfl, rfl, rfl, rfl⟩

/-- C6 (amended): for every input string whose lowercase form is not one of
the four predefined alias names and which does not start with `http://` or
`https://`, `set_proxy` leaves the file system untouched, exits with status
1, and prints the four available alias names on stderr. -/
theorem unknown_proxy_rejected (parse : String → Option TomlTable)
    (render : TomlTable → String) (proxy : String) (fs : FS)
    (h1 : ∀ p ∈ get_predefined_proxies, p.1 ≠ toLowerStr proxy)
    (h2 : startsWithStr proxy "http://" = false)
    (h3 : startsWithStr proxy "https://" = false) :
    set_proxy_run parse render proxy fs = (fs, 1, unknown_proxy_stderr)
    ∧ ∀ p ∈ get_predefined_proxies, ("  - " ++ p.1) ∈ unknown_proxy_stderr := by
  have hfind : get_predefined_proxies.find? (fun p => p.1 == toLowerStr proxy) = none := by
    rw [List.find?_eq_none]
    intro x hx
    simp [h1 x hx]
  have hres : resolve_proxy proxy = none := by
    unfold resolve_proxy
    rw [hfind, h2, h3]
    rfl
  constructor
  · unfold set_proxy_run
    rw [hres]
  · intro p hp
    have hm : ("  - " ++ p.1) ∈ get_predefined_proxies.map (fun q => "  - " ++ q.1) :=
      List.mem_map_of_mem _ hp
    exact List.mem_cons_of_mem _ (List.mem_cons_of_mem _ (List.mem_append_left _ hm))

/-- Witness for C6 at a concrete unknown name. -/
theorem unknown_proxy_rejected_witness :
    set_proxy_run parse0 render0 "gibberish" fs0 = (fs0, 1, unknown_proxy_stderr) :=
  (unknown_proxy_rejected parse0 render0 "gibberish" fs0 (by decide) rfl rfl).1

/-- C7: when the existing config file content fails to parse, both
`set_proxy` and `clear_proxy` proceed from the empty document and complete
successfully (writing the corresponding result and the backup; `clear_proxy`
exits 0). -/
theorem unparseable_config_treated_empty (parse : String → Option TomlTable)
    (render : TomlTable → String) (content url : String) (b : Option String)
    (hparse : parse content = none) :
    set_proxy_fs parse render url { config := some content, backup := b }
      = { config := some (render (set_doc_transform [] url)), backup := some content }
    ∧ clear_proxy_run parse render { config := some content, backup := b }
      = ({ config := some (render (remove_proxy_config [])), backup := some content }, 0) := by
  constructor
  · show FS.mk (some (render (set_doc_transform ((parse content).getD []) url))) (some content)
      = FS.mk (some (render (set_doc_transform [] url))) (some content)
    rw [hparse]
    rfl
  · show (FS.mk (some (render (remove_proxy_config ((parse content).getD [])))) (some content), 0)
      = (FS.mk (some (render (remove_proxy_config []))) (some content), 0)
    rw [hparse]
    rfl

/-- Witness for C7 on a concrete unparseable content. -/
theorem unparseable_config_treated_empty_witness :
    set_proxy_fs parse0 render0 "https://rsproxy.cn/" { config := some "x = [", backup := none }
      = { config := some "", backup := some "x = [" } :=
  (unparseable_config_treated_empty parse0 render0 "x = [" "https://rsproxy.cn/" none rfl).1

/-- C8: when no config file exists, `clear_proxy` is a no-op success: it
exits 0 and the file system (config and backup alike) is unchanged. -/
theorem clear_without_config_noop (parse : String → Option TomlTable)
    (render : TomlTable → String) (fs : FS) (h : fs.config = none) :
    clear_proxy_run parse render fs = (fs, 0) := by
  unfold clear_proxy_run
  rw [h]

/-- Witness for C8 on the empty file system. -/
theorem clear_without_config_noop_witness :
    clear_proxy_run parse0 render0 fs0 = (fs0, 0) :=
  clear_without_config_noop parse0 render0 fs0 rfl

/-- C9: when the document's top-level `source` entry is not a table, the
`set_proxy` transformation leaves that entry exactly as it was and installs
no `replace-with` key and no `rsproxy`/`rsproxy-sparse` source tables: no
registry redirection is active in the result. -/
theorem source_non_table_untouched (d : TomlTable) (u : String) (v : Item)
    (hd : lookupItem d "source" = some v)
    (hv : ∀ t, v ≠ Item.table t) :
    lookupItem (set_doc_transform d u) "source" = some v
    ∧ lookup3 (set_doc_transform d u) "source" "crates-io" "replace-with" = none
    ∧ lookup2 (set_doc_transform d u) "source" "rsproxy" = none
    ∧ lookup2 (set_doc_transform d u) "source" "rsproxy-sparse" = none := by
  have hs := lookupItem_set_doc_src d u
  rw [hd] at hs
  cases v with
  | table t => exact absurd rfl (hv t)
  | str s =>
    refine ⟨hs, ?_, ?_, ?_⟩
    · unfold lookup3 lookup2
      rw [hs]
      rfl
    · unfold lookup2
      rw [hs]
      rfl
    · unfold lookup2
      rw [hs]
      rfl
  | bool bv =>
    refine ⟨hs, ?_, ?_, ?_⟩
    · unfold lookup3 lookup2
      rw [hs]
      rfl
    · unfold lookup2
      rw [hs]
      rfl
    · unfold lookup2
      rw [hs]
      rfl

/-- Witness for C9 on a concrete document whose `source` entry is a string. -/
theorem source_non_table_untouched_witness :
    lookupItem (set_doc_transform [("source", Item.str "x")] "https://rsproxy.cn/") "source"
      = some (Item.str "x") :=
  (source_non_table_untouched [("source", Item.str "x")] "https://rsproxy.cn/"
    (Item.str "x") rfl (fun t h => Item.noConfusion h)).1

/-- C10: `remove_proxy_config` removes keys but never the enclosing tables:
setting on the empty document and then clearing leaves behind empty
`source`, `source.crates-io`, `registries` and `net` tables — not the empty
document — so clearing after setting is not the identity. -/
theorem clear_after_set_leaves_empty_tables :
    remove_proxy_config (set_doc_transform [] "https://rsproxy.cn/crates.io-index/")
      = [("source", Item.table [("crates-io", Item.table [])]),
         ("registries", Item.table []),
         ("net", Item.table [])]
    ∧ remove_proxy_config (set_doc_transform [] "https://rsproxy.cn/crates.io-index/")
        ≠ ([] : TomlTable) := by
  constructor
  · rfl
  · rw [show remove_proxy_config (set_doc_transform [] "https://rsproxy.cn/crates.io-index/")
        = [("source", Item.table [("crates-io", Item.table [])]),
           ("registries", Item.table []),
           ("net", Item.table [])] from rfl]
    exact List.cons_ne_nil _ _

end Rustproxy
